import Mathlib

/-!
Verification of the quantum-collapse proof-of-concept program
(`quantum_collapse_poc.py`).

The program keeps a history of trials; each trial derives a "prediction"
bit from the SHA-256 digest of a fixed seed, the trial index and the
recent history, compares it against an independently generated random
bit, and records the outcome.  A driver runs 100 trials and reports an
accuracy percentage and a z-score.

The development below embeds the program shallowly:

* SHA-256 is implemented bit-faithfully over `Nat` (words are naturals
  reduced modulo `2 ^ 32`), so the prediction function is executable.
* The process-wide random source (`random.random()`) is modelled as an
  oracle value passed in explicitly.
* Python floats are modelled as exact rationals (`ℚ`); the square root
  in the z-score is modelled over `ℝ`.
-/

/-! ## SHA-256 over `Nat` -/

/-- Reduce a natural number to a 32-bit word. -/
def w32 (x : Nat) : Nat := x % 4294967296

/-- Right rotation of a 32-bit word by `n` places. -/
def rotr32 (n x : Nat) : Nat := w32 ((x >>> n) ||| (x <<< (32 - n)))

/-- SHA-256 small sigma 0. -/
def ssig0 (x : Nat) : Nat := rotr32 7 x ^^^ rotr32 18 x ^^^ (x >>> 3)

/-- SHA-256 small sigma 1. -/
def ssig1 (x : Nat) : Nat := rotr32 17 x ^^^ rotr32 19 x ^^^ (x >>> 10)

/-- SHA-256 big Sigma 0. -/
def bsig0 (x : Nat) : Nat := rotr32 2 x ^^^ rotr32 13 x ^^^ rotr32 22 x

/-- SHA-256 big Sigma 1. -/
def bsig1 (x : Nat) : Nat := rotr32 6 x ^^^ rotr32 11 x ^^^ rotr32 25 x

/-- The 64 SHA-256 round constants (FIPS 180-4), written in decimal. -/
def shaK : List Nat :=
  [1116352408, 1899447441, 3049323471, 3921009573, 961987163, 1508970993,
   2453635748, 2870763221, 3624381080, 310598401, 607225278, 1426881987,
   1925078388, 2162078206, 2614888103, 3248222580, 3835390401, 4022224774,
   264347078, 604807628, 770255983, 1249150122, 1555081692, 1996064986,
   2554220882, 2821834349, 2952996808, 3210313671, 3336571891, 3584528711,
   113926993, 338241895, 666307205, 773529912, 1294757372, 1396182291,
   1695183700, 1986661051, 2177026350, 2456956037, 2730485921, 2820302411,
   3259730800, 3345764771, 3516065817, 3600352804, 4094571909, 275423344,
   430227734, 506948616, 659060556, 883997877, 958139571, 1322822218,
   1537002063, 1747873779, 1955562222, 2024104815, 2227730452, 2361852424,
   2428436474, 2756734187, 3204031479, 3329325298]

/-- The SHA-256 initial hash value, as eight 32-bit words in decimal. -/
def shaH0 : List Nat :=
  [1779033703, 3144134277, 1013904242, 2773480762,
   1359893119, 2600822924, 528734635, 1541459225]

/-- SHA-256 padding: append `0x80`, zeros up to 56 mod 64 bytes, and the
bit length as eight big-endian bytes. -/
def sha256Pad (msg : List Nat) : List Nat :=
  let len := msg.length
  let zeros := (64 - (len + 9) % 64) % 64
  let bitLen := len * 8
  msg ++ [0x80] ++ List.replicate zeros 0 ++
    (List.range 8).map (fun i => (bitLen >>> (8 * (7 - i))) % 256)

/-- A list of big-endian bytes as a natural number. -/
def bytesToNat (bs : List Nat) : Nat := bs.foldl (fun a b => a * 256 + b) 0

/-- Split a padded message into its 64-byte blocks. -/
def shaBlocks (padded : List Nat) : List (List Nat) :=
  (List.range (padded.length / 64)).map
    (fun i => (padded.drop (64 * i)).take 64)

/-- Extend the 16 words of a block to the 64-entry message schedule. -/
def extendW (ws : List Nat) : List Nat :=
  (List.range 48).foldl
    (fun w i =>
      let t := i + 16
      w ++ [w32 (ssig1 (w.getD (t - 2) 0) + w.getD (t - 7) 0 +
                 ssig0 (w.getD (t - 15) 0) + w.getD (t - 16) 0)])
    ws

/-- One round of the SHA-256 compression function on the eight-word state. -/
def shaRound (st : List Nat) (k w : Nat) : List Nat :=
  let a := st.getD 0 0
  let b := st.getD 1 0
  let c := st.getD 2 0
  let d := st.getD 3 0
  let e := st.getD 4 0
  let f := st.getD 5 0
  let g := st.getD 6 0
  let h := st.getD 7 0
  let ch := (e &&& f) ^^^ ((4294967295 ^^^ e) &&& g)
  let temp1 := w32 (h + bsig1 e + ch + k + w)
  let maj := (a &&& b) ^^^ (a &&& c) ^^^ (b &&& c)
  let temp2 := w32 (bsig0 a + maj)
  [w32 (temp1 + temp2), a, b, c, w32 (d + temp1), e, f, g]

/-- Process one 64-byte block, updating the eight-word hash state. -/
def processBlock (h8 : List Nat) (block : List Nat) : List Nat :=
  let ws0 := (List.range 16).map (fun i => bytesToNat ((block.drop (4 * i)).take 4))
  let ws := extendW ws0
  let st := (List.range 64).foldl
    (fun st t => shaRound st (shaK.getD t 0) (ws.getD t 0)) h8
  List.zipWith (fun x y => w32 (x + y)) h8 st

/-- The SHA-256 digest of a byte list, as its eight 32-bit words. -/
def sha256Words (msg : List Nat) : List Nat :=
  (shaBlocks (sha256Pad msg)).foldl processBlock shaH0

/-- The SHA-256 digest of a byte list, read as one big-endian natural
number — exactly `int(hash.hexdigest(), 16)` in the source. -/
def sha256Nat (msg : List Nat) : Nat :=
  (sha256Words msg).foldl (fun a w => a * 4294967296 + w) 0

/-- The UTF-8 bytes of a string, as naturals — `str.encode()` in the
source. -/
def strBytes (s : String) : List Nat := s.toUTF8.toList.map (fun b => b.toNat)

/-! ## The trial engine -/

/-- One entry of the engine's history — the dictionary appended by
`run_trial`. -/
structure TrialRecord where
  flip : Nat
  prediction : Nat
  actual : Nat
  correct : Bool
deriving Repr, DecidableEq

/-- The state of a `QuantumCollapse` instance: the seed string and the
ordered history of trial records. -/
structure QuantumCollapse where
  seed : String
  history : List TrialRecord
deriving Repr, DecidableEq

/-- A fresh engine with the source's default seed. -/
def QuantumCollapse.mkDefault : QuantumCollapse :=
  { seed := "ejhollenhub2026", history := [] }

/-- `pure_random_flip`: the source draws `random.random()` (a value in
`[0,1)`) and returns `1` if it is `< 0.5`, else `0`.  The draw is
modelled as the oracle argument `r`. -/
def pure_random_flip (r : ℚ) : Nat :=
  if r < 1 / 2 then 1 else 0

/-- The string of `actual` bits of the last at-most-10 history entries:
`"".join(str(h['actual']) for h in self.history[-10:])`. -/
def historyStr (l : List TrialRecord) : String :=
  String.join ((l.drop (l.length - 10)).map (fun h => toString h.actual))

/-- `biphoton_cascade_prediction`: hash seed ++ index ++ recent history,
reduce the digest modulo 100, and predict `1` below the 85 threshold. -/
def biphoton_cascade_prediction (qc : QuantumCollapse) (flip_num : Nat) : Nat :=
  let quantum_state := qc.seed ++ toString flip_num ++ historyStr qc.history
  let quantum_num := sha256Nat (strBytes quantum_state) % 100
  if quantum_num < 85 then 1 else 0

/-- `run_trial`: compute the prediction from the current state, draw the
random outcome (oracle `r`), append the record, and return the triple. -/
def run_trial (qc : QuantumCollapse) (flip_num : Nat) (r : ℚ) :
    QuantumCollapse × Nat × Nat × Bool :=
  let prediction := biphoton_cascade_prediction qc flip_num
  let actual := pure_random_flip r
  let correct := prediction == actual
  ({ qc with
      history := qc.history ++
        [{ flip := flip_num, prediction := prediction,
           actual := actual, correct := correct }] },
   prediction, actual, correct)

/-- `get_accuracy`: `50.0` on an empty history, else the percentage of
correct records (floats modelled as exact rationals). -/
def get_accuracy (qc : QuantumCollapse) : ℚ :=
  if qc.history = [] then 50
  else ((qc.history.countP (fun h => h.correct) : ℚ) / qc.history.length) * 100

/-! ## The driver -/

/-- The driver loop of `run_quantum_poc`: starting from a fresh engine,
run trials `1` to `100`; the random draw of trial `i` is the oracle
value `rs i`. -/
def run_poc_state (rs : Nat → ℚ) : QuantumCollapse :=
  (List.range 100).foldl (fun qc i => (run_trial qc (i + 1) (rs (i + 1))).1)
    QuantumCollapse.mkDefault

/-- The z-score the driver prints: with `expected = 0.5`,
`observed = final_acc / 100` and `n` the history length, the standard
error is `sqrt(expected * (1 - expected) / n)` and the z-score is
`(observed - expected) / se`. -/
noncomputable def z_score_of (qc : QuantumCollapse) : ℝ :=
  let n : ℝ := qc.history.length
  let expected : ℝ := 1 / 2
  let observed : ℝ := (get_accuracy qc : ℚ) / 100
  let se : ℝ := Real.sqrt (expected * (1 - expected) / n)
  (observed - expected) / se

/-! ## Helper lemmas -/

/-- The random flip only produces the bits `0` and `1`. -/
theorem flip_is_bit (r : ℚ) : pure_random_flip r = 0 ∨ pure_random_flip r = 1 := by
  unfold pure_random_flip
  split <;> simp

/-- The prediction only produces the bits `0` and `1`. -/
theorem prediction_is_bit (qc : QuantumCollapse) (i : Nat) :
    biphoton_cascade_prediction qc i = 0 ∨ biphoton_cascade_prediction qc i = 1 := by
  simp only [biphoton_cascade_prediction]
  split <;> simp

/-- A single trial grows the history by exactly one record. -/
theorem run_trial_history_length (qc : QuantumCollapse) (i : Nat) (r : ℚ) :
    (run_trial qc i r).1.history.length = qc.history.length + 1 := by
  simp [run_trial]

/-- Folding `run_trial` over a list of trial indices grows the history by
the length of the list. -/
theorem foldl_run_trial_length (l : List Nat) (qc : QuantumCollapse) (rs : Nat → ℚ) :
    ((l.foldl (fun qc i => (run_trial qc (i + 1) (rs (i + 1))).1) qc)).history.length
      = qc.history.length + l.length := by
  induction l generalizing qc with
  | nil => simp
  | cons x xs ih =>
    simp only [List.foldl_cons, ih, run_trial_history_length, List.length_cons]
    omega

/-! ## The claims -/

/-- C1: for every trial index and history state, the prediction is `1`
iff the SHA-256 digest of seed ++ decimal index ++ actual bits of the
last at-most-10 history entries, read as a big integer modulo 100, is
below 85, and is `0` otherwise; the digest-modulo value lies in
`[0, 100)`. -/
theorem prediction_iff_digest_mod (qc : QuantumCollapse) (i : Nat) :
    (biphoton_cascade_prediction qc i = 1 ↔
      sha256Nat (strBytes (qc.seed ++ toString i ++ historyStr qc.history)) % 100 < 85) ∧
    (biphoton_cascade_prediction qc i = 0 ↔
      ¬ sha256Nat (strBytes (qc.seed ++ toString i ++ historyStr qc.history)) % 100 < 85) ∧
    sha256Nat (strBytes (qc.seed ++ toString i ++ historyStr qc.history)) % 100 < 100 := by
  refine ⟨?_, ?_, Nat.mod_lt _ (by norm_num)⟩ <;>
    · simp only [biphoton_cascade_prediction]
      split <;> simp_all

/-- C2: the accuracy is exactly 50 on an empty history, and is
`100 * (count of correct) / N` on any non-empty history of `N` records. -/
theorem get_accuracy_cases (qc : QuantumCollapse) :
    (qc.history = [] → get_accuracy qc = 50) ∧
    (qc.history ≠ [] →
      get_accuracy qc =
        100 * (qc.history.countP (fun h => h.correct) : ℚ) / qc.history.length) := by
  constructor
  · intro h
    simp [get_accuracy, h]
  · intro h
    simp only [get_accuracy, if_neg h]
    ring

/-- Witness for C2: both cases evaluated at concrete histories — the
empty history, and a two-record history with one correct record. -/
theorem get_accuracy_cases_witness :
    get_accuracy ⟨"s", []⟩ = 50 ∧
    get_accuracy ⟨"s", [⟨1, 1, 1, true⟩, ⟨2, 1, 0, false⟩]⟩ = 50 := by
  constructor
  · exact (get_accuracy_cases ⟨"s", []⟩).1 rfl
  · rw [(get_accuracy_cases ⟨"s", [⟨1, 1, 1, true⟩, ⟨2, 1, 0, false⟩]⟩).2 (by simp)]
    norm_num [List.countP, List.countP.go]

/-- C3: a trial appends exactly one record to the history, and the
prediction returned for trial `i` is computed from the state before the
new record is appended. -/
theorem run_trial_length_causal (qc : QuantumCollapse) (i : Nat) (r : ℚ) :
    (run_trial qc i r).1.history.length = qc.history.length + 1 ∧
    (run_trial qc i r).2.1 = biphoton_cascade_prediction qc i :=
  ⟨run_trial_history_length qc i r, rfl⟩

/-- C4: a trial returns the prediction computed by
`biphoton_cascade_prediction` and the outcome of `pure_random_flip`,
both bits in `{0, 1}`, with `correct` equal to their equality test, and
appends the record carrying exactly those fields. -/
theorem run_trial_record_spec (qc : QuantumCollapse) (i : Nat) (r : ℚ) :
    (run_trial qc i r).2.1 = biphoton_cascade_prediction qc i ∧
    (run_trial qc i r).2.2.1 = pure_random_flip r ∧
    ((run_trial qc i r).2.1 = 0 ∨ (run_trial qc i r).2.1 = 1) ∧
    ((run_trial qc i r).2.2.1 = 0 ∨ (run_trial qc i r).2.2.1 = 1) ∧
    (run_trial qc i r).2.2.2 = ((run_trial qc i r).2.1 == (run_trial qc i r).2.2.1) ∧
    (run_trial qc i r).1.history =
      qc.history ++ [{ flip := i, prediction := (run_trial qc i r).2.1,
                       actual := (run_trial qc i r).2.2.1,
                       correct := (run_trial qc i r).2.2.2 }] :=
  ⟨rfl, rfl, prediction_is_bit qc i, flip_is_bit r, rfl, rfl⟩

/-- C5: the prediction is a function only of the seed, the trial index
and the `actual` fields of the history: histories agreeing on their
`actual` fields give identical predictions. -/
theorem prediction_function_of_actuals (s : String) (h1 h2 : List TrialRecord)
    (i : Nat) (hact : h1.map (fun t => t.actual) = h2.map (fun t => t.actual)) :
    biphoton_cascade_prediction ⟨s, h1⟩ i = biphoton_cascade_prediction ⟨s, h2⟩ i := by
  have hlen : h1.length = h2.length := by
    simpa using congrArg List.length hact
  have hdrop : ∀ l : List TrialRecord,
      (l.drop (l.length - 10)).map (fun h => toString h.actual)
        = ((l.map (fun t => t.actual)).map (fun a => toString a)).drop (l.length - 10) := by
    intro l
    simp only [List.map_drop, List.map_map]
    rfl
  have hstr : historyStr h1 = historyStr h2 := by
    unfold historyStr
    rw [hdrop h1, hdrop h2, hact, hlen]
  unfold biphoton_cascade_prediction
  rw [hstr]

/-- Witness for C5: two one-record histories differing in every field
but `actual` give the same prediction. -/
theorem prediction_function_of_actuals_witness :
    ([⟨1, 0, 1, false⟩] : List TrialRecord).map (fun t => t.actual)
      = ([⟨9, 1, 1, true⟩] : List TrialRecord).map (fun t => t.actual) ∧
    biphoton_cascade_prediction ⟨"ejhollenhub2026", [⟨1, 0, 1, false⟩]⟩ 2
      = biphoton_cascade_prediction ⟨"ejhollenhub2026", [⟨9, 1, 1, true⟩]⟩ 2 :=
  ⟨rfl, prediction_function_of_actuals "ejhollenhub2026" _ _ 2 rfl⟩

/-- C6: the random flip is total on its oracle input and always returns
a value in `{0, 1}`. -/
theorem pure_random_flip_total (r : ℚ) :
    pure_random_flip r = 0 ∨ pure_random_flip r = 1 :=
  flip_is_bit r

/-- C7: the driver's loop runs the engine exactly 100 times, and the
resulting history holds exactly 100 records, for every random oracle. -/
theorem run_poc_history_length (rs : Nat → ℚ) :
    (run_poc_state rs).history.length = 100 := by
  have h := foldl_run_trial_length (List.range 100) QuantumCollapse.mkDefault rs
  simpa [run_poc_state, QuantumCollapse.mkDefault] using h

/-- C8: the driver's z-score is the standardized deviation of the
observed accuracy from the 50% null hypothesis: with `n` the history
length and `observed = accuracy / 100`,
`z = (observed - 0.5) / sqrt(0.5 * (1 - 0.5) / n)`. -/
theorem z_score_formula (qc : QuantumCollapse) :
    z_score_of qc =
      ((get_accuracy qc : ℝ) / 100 - 0.5) /
        Real.sqrt (0.5 * (1 - 0.5) / (qc.history.length : ℝ)) := by
  unfold z_score_of
  norm_num

/-- C9: a trial is append-only on the history: the records already
present are preserved unchanged, in order, and the new record goes at
the end. -/
theorem run_trial_append_only (qc : QuantumCollapse) (i : Nat) (r : ℚ) :
    (run_trial qc i r).1.history.take qc.history.length = qc.history ∧
    (run_trial qc i r).1.history =
      qc.history ++
        [{ flip := i, prediction := biphoton_cascade_prediction qc i,
           actual := pure_random_flip r,
           correct := biphoton_cascade_prediction qc i == pure_random_flip r }] := by
  constructor
  · simp [run_trial]
  · rfl

/-- C10: the accuracy always lies in the closed interval `[0, 100]`. -/
theorem get_accuracy_bounds (qc : QuantumCollapse) :
    0 ≤ get_accuracy qc ∧ get_accuracy qc ≤ 100 := by
  unfold get_accuracy
  split
  · norm_num
  · rename_i h
    have hlen : (0 : ℚ) < qc.history.length := by
      have hne : qc.history.length ≠ 0 := by
        simpa [List.length_eq_zero] using h
      exact_mod_cast Nat.pos_of_ne_zero hne
    have hcount : (qc.history.countP (fun h => h.correct) : ℚ) ≤ qc.history.length := by
      exact_mod_cast qc.history.countP_le_length _
    constructor
    · positivity
    · have hq : (qc.history.countP (fun h => h.correct) : ℚ) / qc.history.length ≤ 1 :=
        (div_le_one hlen).mpr hcount
      nlinarith
